import Mathlib

/-!
Shallow embedding of the DiaTrack risk-scoring and feature-attribution
engine (`RiskPredictionService` in `src/src/utils/databaseCheck.ts`).

JavaScript numbers are modelled as exact rationals (`ℚ`); the engine only
adds, subtracts, multiplies by constants, divides by a nonzero total, and
compares, so every computation it performs is exact on the inputs we
quantify over.  Numeric fields that the source uses both as numbers and as
truthy flags (`hypertension`, `heart_disease`, `gender`) are kept as `ℚ`,
with JavaScript truthiness `x` rendered as `x ≠ 0` and strict equality
`x === 1` rendered as `x = 1`.  Strings stay `String`.
-/

/-- Clinical input record, mirroring `RiskPredictionInput`. -/
structure RiskPredictionInput where
  patient_id : String
  age : ℚ
  gender : ℚ
  bmi : ℚ
  hypertension : ℚ
  heart_disease : ℚ
  smoking_history : String
  HbA1c_level : ℚ
  blood_glucose_level : ℚ

/-- Smoking-status literals used by the source. -/
def smoking_current : String := "current"

def smoking_former : String := "former"

/-- Threshold constants, mirroring the `RISK_THRESHOLDS` table. -/
def THRESH_HbA1c_normal : ℚ := 5.7

def THRESH_HbA1c_prediabetes : ℚ := 6.5

def THRESH_HbA1c_diabetes : ℚ := 6.5

def THRESH_HbA1c_highRisk : ℚ := 6.9

def THRESH_glucose_normal : ℚ := 100

def THRESH_glucose_prediabetes : ℚ := 126

def THRESH_glucose_diabetes : ℚ := 200

def THRESH_glucose_moderateRisk : ℚ := 120

def THRESH_bmi_normal : ℚ := 25

def THRESH_bmi_overweight : ℚ := 30

def THRESH_bmi_obese : ℚ := 35

def THRESH_age_increased_risk : ℚ := 45

/-- Stage-A HbA1c contribution: the HbA1c branch chain of
`calculateBaseRiskScore`. -/
def hba1cContributionA (x : ℚ) : ℚ :=
  if x ≥ THRESH_HbA1c_diabetes then 0.35
  else if x > THRESH_HbA1c_highRisk then 0.30
  else if x ≥ THRESH_HbA1c_normal then 0.15
  else 0

/-- Stage-A blood-glucose contribution branch chain of
`calculateBaseRiskScore`. -/
def glucoseContributionA (g : ℚ) : ℚ :=
  if g ≥ THRESH_glucose_diabetes then 0.25
  else if g ≥ THRESH_glucose_prediabetes then 0.20
  else if g ≥ THRESH_glucose_moderateRisk then 0.12
  else if g ≥ THRESH_glucose_normal then 0.10
  else 0

/-- Stage-A BMI contribution branch chain of `calculateBaseRiskScore`. -/
def bmiContributionA (b : ℚ) : ℚ :=
  if b ≥ THRESH_bmi_obese then 0.20
  else if b ≥ THRESH_bmi_overweight then 0.15
  else if b ≥ THRESH_bmi_normal then 0.05
  else 0

/-- Stage-A age contribution of `calculateBaseRiskScore`. -/
def ageContributionA (a : ℚ) : ℚ :=
  if a ≥ THRESH_age_increased_risk then 0.10 else 0

/-- Stage-A hypertension contribution (`if (input.hypertension) score += 0.15`,
JavaScript truthiness). -/
def hypertensionContributionA (h : ℚ) : ℚ := if h ≠ 0 then 0.15 else 0

/-- Stage-A heart-disease contribution (JavaScript truthiness). -/
def heartDiseaseContributionA (h : ℚ) : ℚ := if h ≠ 0 then 0.15 else 0

/-- Stage-A smoking contribution of `calculateBaseRiskScore`. -/
def smokingContributionA (s : String) : ℚ :=
  if s = smoking_current then 0.10
  else if s = smoking_former then 0.05
  else 0

/-- Stage-A gender contribution (`input.gender === 1`). -/
def genderContributionA (g : ℚ) : ℚ := if g = 1 then 0.05 else 0

/-- Stage A: `calculateBaseRiskScore` — sum of the per-feature
contributions in source order, capped at 1.0 by `Math.min`. -/
def calculateBaseRiskScore (input : RiskPredictionInput) : ℚ :=
  min (hba1cContributionA input.HbA1c_level
    + glucoseContributionA input.blood_glucose_level
    + bmiContributionA input.bmi
    + ageContributionA input.age
    + hypertensionContributionA input.hypertension
    + heartDiseaseContributionA input.heart_disease
    + smokingContributionA input.smoking_history
    + genderContributionA input.gender) 1

/-- Stage B: `applyRiskModifiers` — four cumulative additive modifiers,
then `Math.min(·, 1.0)`. -/
def applyRiskModifiers (baseScore : ℚ) (input : RiskPredictionInput) : ℚ :=
  min (baseScore
    + (if input.blood_glucose_level > 200 ∧ input.HbA1c_level ≥ 6.5 then 0.20 else 0)
    + (if input.HbA1c_level ≥ 6.0 ∧ input.bmi ≥ 30 then 0.15 else 0)
    + (if input.age ≥ 45 ∧ input.HbA1c_level ≥ 5.7 then 0.10 else 0)
    + (if input.hypertension ≠ 0 ∧ input.heart_disease ≠ 0 then 0.10 else 0)) 1

/-- Final probability: Stage B applied to the Stage-A base score, exactly
as chained inside `calculateRisk`. -/
def modifiedScore (input : RiskPredictionInput) : ℚ :=
  applyRiskModifiers (calculateBaseRiskScore input) input

/-- Stage C: `calculateConfidenceScore` — start at 0.8, apply the four
extreme-value penalties and the consistency bonus, clamp to [0.5, 1.0]. -/
def calculateConfidenceScore (input : RiskPredictionInput) : ℚ :=
  let c0 : ℚ := 0.8
  let c1 := if input.HbA1c_level > 15 ∨ input.HbA1c_level < 3 then c0 - 0.2 else c0
  let c2 := if input.blood_glucose_level > 600 ∨ input.blood_glucose_level < 50 then c1 - 0.2 else c1
  let c3 := if input.bmi > 60 ∨ input.bmi < 15 then c2 - 0.1 else c2
  let c4 := if input.age > 100 ∨ input.age < 10 then c3 - 0.1 else c3
  let c5 := if input.HbA1c_level ≥ 6.5 ∧ input.blood_glucose_level ≥ 200 then c4 + 0.1 else c4
  max 0.5 (min c5 1)

/-- Categorical risk level. -/
inductive RiskLevel
  | Low
  | Moderate
  | High
  | Critical
deriving DecidableEq

/-- Stage E: `determineRiskLevel` buckets the probability. -/
def determineRiskLevel (score : ℚ) : RiskLevel :=
  if score ≥ 0.8 then RiskLevel.Critical
  else if score ≥ 0.6 then RiskLevel.High
  else if score ≥ 0.4 then RiskLevel.Moderate
  else RiskLevel.Low

/-- Binary classification label. -/
inductive PredictionResult
  | Positive
  | Negative
deriving DecidableEq

/-- Stage E: `shouldForcePositive` — the forced-override rules. -/
def shouldForcePositive (input : RiskPredictionInput) : Bool :=
  if input.HbA1c_level > THRESH_HbA1c_highRisk ∧
      input.blood_glucose_level ≥ THRESH_glucose_moderateRisk then true
  else if input.blood_glucose_level ≥ THRESH_glucose_diabetes ∧
      input.HbA1c_level ≥ 5.9 then true
  else if input.HbA1c_level ≥ THRESH_HbA1c_diabetes ∨
      input.blood_glucose_level ≥ THRESH_glucose_prediabetes then true
  else false

/-- Stage E: the `predictionResult` expression of `calculateRisk`:
forced override first, else a numeric threshold on the final probability. -/
def predictionResult (input : RiskPredictionInput) : PredictionResult :=
  if shouldForcePositive input then PredictionResult.Positive
  else if modifiedScore input > 0.5 then PredictionResult.Positive
  else PredictionResult.Negative

/-- Stage-D HbA1c contribution recomputed by `calculateSHAPValues`.  The
source checks `≥ diabetes (6.5)` then `≥ prediabetes (6.5)` — the 0.25
branch repeats the same threshold. -/
def hba1cContributionD (x : ℚ) : ℚ :=
  if x ≥ THRESH_HbA1c_diabetes then 0.35
  else if x ≥ THRESH_HbA1c_prediabetes then 0.25
  else if x ≥ THRESH_HbA1c_normal then 0.15
  else 0

/-- Stage-D blood-glucose contribution recomputed by `calculateSHAPValues`.
Unlike Stage A, the source has no `≥ 120 → 0.12` band here. -/
def glucoseContributionD (g : ℚ) : ℚ :=
  if g ≥ THRESH_glucose_diabetes then 0.25
  else if g ≥ THRESH_glucose_prediabetes then 0.20
  else if g ≥ THRESH_glucose_normal then 0.10
  else 0

/-- Stage-D BMI contribution recomputed by `calculateSHAPValues`. -/
def bmiContributionD (b : ℚ) : ℚ :=
  if b ≥ THRESH_bmi_obese then 0.20
  else if b ≥ THRESH_bmi_overweight then 0.15
  else if b ≥ THRESH_bmi_normal then 0.05
  else 0

/-- Stage-D age contribution (`input.age >= 45 ? 0.10 : 0`). -/
def ageContributionD (a : ℚ) : ℚ :=
  if a ≥ THRESH_age_increased_risk then 0.10 else 0

/-- Stage-D hypertension contribution (`input.hypertension ? 0.15 : 0`). -/
def hypertensionContributionD (h : ℚ) : ℚ := if h ≠ 0 then 0.15 else 0

/-- Stage-D heart-disease contribution (`input.heart_disease ? 0.15 : 0`). -/
def heartDiseaseContributionD (h : ℚ) : ℚ := if h ≠ 0 then 0.15 else 0

/-- Stage-D smoking contribution of `calculateSHAPValues`. -/
def smokingContributionD (s : String) : ℚ :=
  if s = smoking_current then 0.10
  else if s = smoking_former then 0.05
  else 0

/-- Stage-D gender contribution (`input.gender === 1 ? 0.05 : 0`). -/
def genderContributionD (g : ℚ) : ℚ := if g = 1 then 0.05 else 0

/-- Normalised per-feature importance record, mirroring the
`shap_values` object. -/
structure ShapValues where
  bmi : ℚ
  hbA1c_level : ℚ
  blood_glucose_level : ℚ
  age : ℚ
  hypertension : ℚ
  heart_disease : ℚ
  smoking_history : ℚ
  gender : ℚ
deriving DecidableEq

/-- The all-zero `shap_values` object returned on both zero-total early
exits of `calculateSHAPValues`. -/
def zeroShap : ShapValues :=
  { bmi := 0, hbA1c_level := 0, blood_glucose_level := 0, age := 0,
    hypertension := 0, heart_disease := 0, smoking_history := 0, gender := 0 }

/-- Sum `totalContribution` of the Stage-D per-feature contributions, in
source addition order. -/
def totalContribution (input : RiskPredictionInput) : ℚ :=
  hba1cContributionD input.HbA1c_level
    + glucoseContributionD input.blood_glucose_level
    + bmiContributionD input.bmi
    + ageContributionD input.age
    + hypertensionContributionD input.hypertension
    + heartDiseaseContributionD input.heart_disease
    + smokingContributionD input.smoking_history
    + genderContributionD input.gender

/-- Stage D: `calculateSHAPValues` — early-exit with zeros when the base
score is 0 or when the recomputed total is 0, else normalise each
contribution by the total. -/
def calculateSHAPValues (input : RiskPredictionInput) : ShapValues :=
  if calculateBaseRiskScore input = 0 then zeroShap
  else if totalContribution input = 0 then zeroShap
  else
    { bmi := bmiContributionD input.bmi / totalContribution input,
      hbA1c_level := hba1cContributionD input.HbA1c_level / totalContribution input,
      blood_glucose_level := glucoseContributionD input.blood_glucose_level / totalContribution input,
      age := ageContributionD input.age / totalContribution input,
      hypertension := hypertensionContributionD input.hypertension / totalContribution input,
      heart_disease := heartDiseaseContributionD input.heart_disease / totalContribution input,
      smoking_history := smokingContributionD input.smoking_history / totalContribution input,
      gender := genderContributionD input.gender / totalContribution input }

/-- Display names of the eight features, in the order of the source's
`features` array in `generateFeatureContributions`. -/
def featureName_hba1c : String := "HbA1c Level"

def featureName_glucose : String := "Blood Glucose"

def featureName_bmi : String := "BMI"

def featureName_age : String := "Age"

def featureName_hypertension : String := "Hypertension"

def featureName_heartDisease : String := "Heart Disease"

def featureName_smoking : String := "Smoking History"

def featureName_gender : String := "Gender"

/-- Description strings from `generateFeatureDescription`. -/
def desc_hba1c_critical : String := "Critical: HbA1c indicates diabetes"

def desc_hba1c_elevated : String := "Elevated: HbA1c in prediabetes range"

def desc_hba1c_normal : String := "Normal: HbA1c within healthy range"

def desc_glucose_critical : String := "Critical: Blood glucose indicates diabetes"

def desc_glucose_elevated : String := "Elevated: Blood glucose in prediabetes range"

def desc_glucose_borderline : String := "Borderline: Blood glucose above normal"

def desc_glucose_normal : String := "Normal: Blood glucose within healthy range"

def desc_bmi_critical : String := "Critical: BMI indicates severe obesity"

def desc_bmi_high : String := "High: BMI indicates obesity"

def desc_bmi_moderate : String := "Moderate: BMI indicates overweight"

def desc_bmi_normal : String := "Normal: BMI within healthy range"

def desc_age_high : String := "High: Advanced age increases diabetes risk"

def desc_age_moderate : String := "Moderate: Age increases diabetes risk"

def desc_age_low : String := "Low: Age is not a significant risk factor"

def desc_hyp_yes : String := "High: Hypertension is a diabetes risk factor"

def desc_hyp_no : String := "Low: No hypertension"

def desc_heart_yes : String := "High: Heart disease is a diabetes risk factor"

def desc_heart_no : String := "Low: No heart disease"

def desc_smoking_current : String := "High: Current smoking increases diabetes risk"

def desc_smoking_former : String := "Moderate: Former smoking may affect risk"

def desc_smoking_never : String := "Low: No smoking history"

def desc_gender_male : String := "Moderate: Male gender has slightly higher risk"

def desc_gender_female : String := "Low: Female gender has lower risk"

/-- Branch of `generateFeatureDescription` for the `hbA1c_level` key. -/
def hba1cDescription (input : RiskPredictionInput) : String :=
  if input.HbA1c_level ≥ 6.5 then desc_hba1c_critical
  else if input.HbA1c_level ≥ 5.7 then desc_hba1c_elevated
  else desc_hba1c_normal

/-- Branch of `generateFeatureDescription` for the `blood_glucose_level` key. -/
def glucoseDescription (input : RiskPredictionInput) : String :=
  if input.blood_glucose_level ≥ 200 then desc_glucose_critical
  else if input.blood_glucose_level ≥ 126 then desc_glucose_elevated
  else if input.blood_glucose_level ≥ 100 then desc_glucose_borderline
  else desc_glucose_normal

/-- Branch of `generateFeatureDescription` for the `bmi` key. -/
def bmiDescription (input : RiskPredictionInput) : String :=
  if input.bmi ≥ 35 then desc_bmi_critical
  else if input.bmi ≥ 30 then desc_bmi_high
  else if input.bmi ≥ 25 then desc_bmi_moderate
  else desc_bmi_normal

/-- Branch of `generateFeatureDescription` for the `age` key. -/
def ageDescription (input : RiskPredictionInput) : String :=
  if input.age ≥ 65 then desc_age_high
  else if input.age ≥ 45 then desc_age_moderate
  else desc_age_low

/-- Branch of `generateFeatureDescription` for the `hypertension` key. -/
def hypertensionDescription (input : RiskPredictionInput) : String :=
  if input.hypertension ≠ 0 then desc_hyp_yes else desc_hyp_no

/-- Branch of `generateFeatureDescription` for the `heart_disease` key. -/
def heartDiseaseDescription (input : RiskPredictionInput) : String :=
  if input.heart_disease ≠ 0 then desc_heart_yes else desc_heart_no

/-- Branch of `generateFeatureDescription` for the `smoking_history` key. -/
def smokingDescription (input : RiskPredictionInput) : String :=
  if input.smoking_history = smoking_current then desc_smoking_current
  else if input.smoking_history = smoking_former then desc_smoking_former
  else desc_smoking_never

/-- Branch of `generateFeatureDescription` for the `gender` key. -/
def genderDescription (input : RiskPredictionInput) : String :=
  if input.gender = 1 then desc_gender_male else desc_gender_female

/-- Branches of `isRiskFactor`, one per feature key. -/
def hba1cIsRiskFactor (input : RiskPredictionInput) : Bool :=
  if input.HbA1c_level ≥ 5.7 then true else false

def glucoseIsRiskFactor (input : RiskPredictionInput) : Bool :=
  if input.blood_glucose_level ≥ 100 then true else false

def bmiIsRiskFactor (input : RiskPredictionInput) : Bool :=
  if input.bmi ≥ 25 then true else false

def ageIsRiskFactor (input : RiskPredictionInput) : Bool :=
  if input.age ≥ 45 then true else false

def hypertensionIsRiskFactor (input : RiskPredictionInput) : Bool :=
  if input.hypertension = 1 then true else false

def heartDiseaseIsRiskFactor (input : RiskPredictionInput) : Bool :=
  if input.heart_disease = 1 then true else false

def smokingIsRiskFactor (input : RiskPredictionInput) : Bool :=
  if input.smoking_history = smoking_current ∨ input.smoking_history = smoking_former
  then true else false

def genderIsRiskFactor (input : RiskPredictionInput) : Bool :=
  if input.gender = 1 then true else false

/-- Entry of the `feature_contributions` ranking. -/
structure FeatureContribution where
  name : String
  contribution : ℚ
  description : String
  risk_factor : Bool
deriving DecidableEq

/-- The eight feature entries in the source's `features` array order,
each carrying its normalised share from the `shap_values` record. -/
def unsortedFeatureContributions (shap : ShapValues) (input : RiskPredictionInput) :
    List FeatureContribution :=
  [ { name := featureName_hba1c, contribution := shap.hbA1c_level,
      description := hba1cDescription input, risk_factor := hba1cIsRiskFactor input },
    { name := featureName_glucose, contribution := shap.blood_glucose_level,
      description := glucoseDescription input, risk_factor := glucoseIsRiskFactor input },
    { name := featureName_bmi, contribution := shap.bmi,
      description := bmiDescription input, risk_factor := bmiIsRiskFactor input },
    { name := featureName_age, contribution := shap.age,
      description := ageDescription input, risk_factor := ageIsRiskFactor input },
    { name := featureName_hypertension, contribution := shap.hypertension,
      description := hypertensionDescription input, risk_factor := hypertensionIsRiskFactor input },
    { name := featureName_heartDisease, contribution := shap.heart_disease,
      description := heartDiseaseDescription input, risk_factor := heartDiseaseIsRiskFactor input },
    { name := featureName_smoking, contribution := shap.smoking_history,
      description := smokingDescription input, risk_factor := smokingIsRiskFactor input },
    { name := featureName_gender, contribution := shap.gender,
      description := genderDescription input, risk_factor := genderIsRiskFactor input } ]

/-- Insertion step of a stable descending sort: the incoming element is
placed before the first element whose contribution it ties or exceeds, as
the ECMAScript stable `sort` with comparator `(a, b) => b.contribution -
a.contribution` does. -/
def insertByContributionDesc (a : FeatureContribution) :
    List FeatureContribution → List FeatureContribution
  | [] => [a]
  | b :: bs =>
    if a.contribution ≥ b.contribution then a :: b :: bs
    else b :: insertByContributionDesc a bs

/-- Stable descending sort by `contribution` (insertion sort), modelling
the ECMAScript stable `Array.prototype.sort`. -/
def sortByContributionDesc : List FeatureContribution → List FeatureContribution
  | [] => []
  | a :: as => insertByContributionDesc a (sortByContributionDesc as)

/-- `generateFeatureContributions`: build the eight entries, then sort by
descending contribution. -/
def generateFeatureContributions (shap : ShapValues) (input : RiskPredictionInput) :
    List FeatureContribution :=
  sortByContributionDesc (unsortedFeatureContributions shap input)

/-- Flag messages pushed by `checkFlaggedConditions`, in evaluation order. -/
def flag_msg_critical_combo : String :=
  "CRITICAL: Blood glucose > 200 mg/dL AND HbA1c ≥ 6.5% - Immediate medical attention required"

def flag_msg_hba1c_69_glucose : String :=
  "HIGH RISK: HbA1c > 6.9% with Blood glucose ≥ 120 mg/dL"

def flag_msg_glucose_200_hba1c : String :=
  "HIGH RISK: Blood glucose ≥ 200 mg/dL with HbA1c ≥ 5.9%"

def flag_msg_hba1c_diabetes : String :=
  "HIGH RISK: HbA1c ≥ 6.5% indicates diabetes"

def flag_msg_glucose_diabetes : String :=
  "HIGH RISK: Blood glucose > 200 mg/dL indicates diabetes"

def flag_msg_bmi_obese : String :=
  "HIGH RISK: Severe obesity (BMI ≥ 35)"

def flag_msg_prediabetes_combo : String :=
  "MODERATE RISK: Both HbA1c and blood glucose in prediabetes range"

def flag_msg_age_obesity : String :=
  "MODERATE RISK: Age ≥ 45 and obesity combination"

/-- `checkFlaggedConditions`: sequential pushes become list appends, in
the source's fixed evaluation order. -/
def checkFlaggedConditions (input : RiskPredictionInput) : List String :=
  (if input.blood_glucose_level > 200 ∧ input.HbA1c_level ≥ 6.5
    then [flag_msg_critical_combo] else [])
  ++ (if input.HbA1c_level > 6.9 ∧ input.blood_glucose_level ≥ 120
    then [flag_msg_hba1c_69_glucose] else [])
  ++ (if input.blood_glucose_level ≥ 200 ∧ input.HbA1c_level ≥ 5.9
    then [flag_msg_glucose_200_hba1c] else [])
  ++ (if input.HbA1c_level ≥ 6.5 then [flag_msg_hba1c_diabetes] else [])
  ++ (if input.blood_glucose_level > 200 then [flag_msg_glucose_diabetes] else [])
  ++ (if input.bmi ≥ 35 then [flag_msg_bmi_obese] else [])
  ++ (if input.HbA1c_level ≥ 5.7 ∧ input.blood_glucose_level ≥ 126
    then [flag_msg_prediabetes_combo] else [])
  ++ (if input.age ≥ 45 ∧ input.bmi ≥ 30 then [flag_msg_age_obesity] else [])

/-- Spec-side rendering of the C7 sentence: the eight (condition, message)
rules in the stated fixed order.  This definition follows the claim's
words, to be compared against `checkFlaggedConditions`. -/
def flagRules (input : RiskPredictionInput) : List (Bool × String) :=
  [ (decide (input.blood_glucose_level > 200 ∧ input.HbA1c_level ≥ 6.5),
      flag_msg_critical_combo),
    (decide (input.HbA1c_level > 6.9 ∧ input.blood_glucose_level ≥ 120),
      flag_msg_hba1c_69_glucose),
    (decide (input.blood_glucose_level ≥ 200 ∧ input.HbA1c_level ≥ 5.9),
      flag_msg_glucose_200_hba1c),
    (decide (input.HbA1c_level ≥ 6.5), flag_msg_hba1c_diabetes),
    (decide (input.blood_glucose_level > 200), flag_msg_glucose_diabetes),
    (decide (input.bmi ≥ 35), flag_msg_bmi_obese),
    (decide (input.HbA1c_level ≥ 5.7 ∧ input.blood_glucose_level ≥ 126),
      flag_msg_prediabetes_combo),
    (decide (input.age ≥ 45 ∧ input.bmi ≥ 30), flag_msg_age_obesity) ]

/-- Spec-side flags list per the C7 sentence: the messages of exactly the
rules whose condition holds, in the fixed order. -/
def flagsSpec (input : RiskPredictionInput) : List String :=
  ((flagRules input).filter (fun r => r.1)).map (fun r => r.2)

/-- Confidence interval record. -/
structure ConfidenceInterval where
  lower : ℚ
  upper : ℚ
deriving DecidableEq

/-- `calculateConfidenceInterval`: symmetric margin around the score,
clamped into [0,1] endpoint-wise. -/
def calculateConfidenceInterval (score confidence : ℚ) : ConfidenceInterval :=
  let margin := (1 - confidence) * 0.5
  { lower := max 0 (score - margin), upper := min 1 (score + margin) }

/-- Recommendation clauses from `generateRecommendations`, each with the
trailing space of the source. -/
def rec_urgent : String := "URGENT: Immediate medical consultation required. "

def rec_critical : String :=
  "Immediate medical intervention required. Consult healthcare provider within 24 hours. "

def rec_high : String := "Schedule medical consultation within 1 week. "

def rec_moderate : String := "Schedule medical consultation within 2 weeks. "

def rec_low : String := "Continue regular health monitoring. "

def rec_hba1c_diabetes : String :=
  "Diabetes diagnosis likely - immediate lifestyle changes and medical management required. "

def rec_hba1c_pre : String :=
  "Prediabetes detected - focus on diet, exercise, and weight management. "

def rec_glucose_high : String :=
  "Elevated blood glucose requires immediate attention and monitoring. "

def rec_bmi_high : String :=
  "Weight management through diet and exercise is crucial. "

def rec_hypertension : String :=
  "Blood pressure management is essential for diabetes prevention. "

def rec_smoking : String := "Smoking cessation is strongly recommended. "

def rec_general : String :=
  "Focus on balanced nutrition, regular physical activity, and stress management. "

/-- Token searched for by `flag.includes('CRITICAL')`. -/
def flagToken_critical : String := "CRITICAL"

/-- Stage E: `generateRecommendations` — clause concatenation in source
order, then `trim`. -/
def generateRecommendations (input : RiskPredictionInput) (riskLevel : RiskLevel)
    (flaggedConditions : List String) : String :=
  ((if flaggedConditions.any (fun flag => flag.containsSubstr flagToken_critical)
      then rec_urgent else "")
    ++ (match riskLevel with
        | RiskLevel.Critical => rec_critical
        | RiskLevel.High => rec_high
        | RiskLevel.Moderate => rec_moderate
        | RiskLevel.Low => rec_low)
    ++ (if input.HbA1c_level ≥ 6.5 then rec_hba1c_diabetes
        else if input.HbA1c_level ≥ 5.7 then rec_hba1c_pre else "")
    ++ (if input.blood_glucose_level > 200 then rec_glucose_high else "")
    ++ (if input.bmi ≥ 30 then rec_bmi_high else "")
    ++ (if input.hypertension ≠ 0 then rec_hypertension else "")
    ++ (if input.smoking_history = smoking_current then rec_smoking else "")
    ++ rec_general).trim

/-- Result record, mirroring `RiskPredictionResult`. -/
structure RiskPredictionResult where
  prediction_result : PredictionResult
  confidence_score : ℚ
  risk_level : RiskLevel
  probability : ℚ
  recommendations : String
  shap_values : ShapValues
  feature_contributions : List FeatureContribution
  flagged_conditions : List String
  confidence_interval : ConfidenceInterval
deriving DecidableEq

/-- The `assess` operation: `calculateRisk`.  The source wraps the body in
`try/catch` and rethrows a fixed error message; the error channel is kept
explicit here as `Except String`.  The source performs no input
validation of any kind — neither `patient_id` nor numeric finiteness is
checked — and every step of the pure pipeline is total, while the
persistence call (`logPrediction`) swallows its own errors, so no
execution path reaches the `catch`: the embedding is `Except.ok` of the
assembled record on every input. -/
def calculateRisk (input : RiskPredictionInput) : Except String RiskPredictionResult :=
  let baseScore := calculateBaseRiskScore input
  let ms := applyRiskModifiers baseScore input
  let confidenceScore := calculateConfidenceScore input
  let riskLevel := determineRiskLevel ms
  let shapValues := calculateSHAPValues input
  let featureContributions := generateFeatureContributions shapValues input
  let flaggedConditions := checkFlaggedConditions input
  let recommendations := generateRecommendations input riskLevel flaggedConditions
  let confidenceInterval := calculateConfidenceInterval ms confidenceScore
  let forcePositive := shouldForcePositive input
  let predictionRes :=
    if forcePositive then PredictionResult.Positive
    else if ms > 0.5 then PredictionResult.Positive
    else PredictionResult.Negative
  Except.ok
    { prediction_result := predictionRes,
      confidence_score := confidenceScore,
      risk_level := riskLevel,
      probability := ms,
      recommendations := recommendations,
      shap_values := shapValues,
      feature_contributions := featureContributions,
      flagged_conditions := flaggedConditions,
      confidence_interval := confidenceInterval }

/-- Smoking-status literal for a never-smoker, as used by the tests. -/
def smoking_never : String := "never"

/-- Concrete input whose `patient_id` is the empty string and whose
numeric fields are all zero. -/
def inputEmptyId : RiskPredictionInput :=
  { patient_id := "", age := 0, gender := 0, bmi := 0, hypertension := 0,
    heart_disease := 0, smoking_history := smoking_never,
    HbA1c_level := 0, blood_glucose_level := 0 }

/-- Concrete input with HbA1c exactly at the diabetes threshold and every
other field benign: the forced override fires while the probability stays
at 0.35. -/
def inputLowProbPositive : RiskPredictionInput :=
  { patient_id := "P1", age := 0, gender := 0, bmi := 0, hypertension := 0,
    heart_disease := 0, smoking_history := smoking_never,
    HbA1c_level := 6.5, blood_glucose_level := 0 }

/-- Concrete severe input (the test suite's second case): every flag-level
indicator elevated. -/
def inputCriticalCase : RiskPredictionInput :=
  { patient_id := "TEST002", age := 60, gender := 0, bmi := 38,
    hypertension := 1, heart_disease := 1, smoking_history := smoking_current,
    HbA1c_level := 6.8, blood_glucose_level := 220 }

/-! ### Helper lemmas: nonnegativity and bounds -/

lemma hba1cContributionA_nonneg (x : ℚ) : 0 ≤ hba1cContributionA x := by
  unfold hba1cContributionA; split_ifs <;> norm_num

lemma glucoseContributionA_nonneg (g : ℚ) : 0 ≤ glucoseContributionA g := by
  unfold glucoseContributionA; split_ifs <;> norm_num

lemma bmiContributionA_nonneg (b : ℚ) : 0 ≤ bmiContributionA b := by
  unfold bmiContributionA; split_ifs <;> norm_num

lemma ageContributionA_nonneg (a : ℚ) : 0 ≤ ageContributionA a := by
  unfold ageContributionA; split_ifs <;> norm_num

lemma hypertensionContributionA_nonneg (h : ℚ) : 0 ≤ hypertensionContributionA h := by
  unfold hypertensionContributionA; split_ifs <;> norm_num

lemma heartDiseaseContributionA_nonneg (h : ℚ) : 0 ≤ heartDiseaseContributionA h := by
  unfold heartDiseaseContributionA; split_ifs <;> norm_num

lemma smokingContributionA_nonneg (s : String) : 0 ≤ smokingContributionA s := by
  unfold smokingContributionA; split_ifs <;> norm_num

lemma genderContributionA_nonneg (g : ℚ) : 0 ≤ genderContributionA g := by
  unfold genderContributionA; split_ifs <;> norm_num

lemma calculateBaseRiskScore_nonneg (input : RiskPredictionInput) :
    0 ≤ calculateBaseRiskScore input := by
  unfold calculateBaseRiskScore
  refine le_min ?_ (by norm_num)
  have h1 := hba1cContributionA_nonneg input.HbA1c_level
  have h2 := glucoseContributionA_nonneg input.blood_glucose_level
  have h3 := bmiContributionA_nonneg input.bmi
  have h4 := ageContributionA_nonneg input.age
  have h5 := hypertensionContributionA_nonneg input.hypertension
  have h6 := heartDiseaseContributionA_nonneg input.heart_disease
  have h7 := smokingContributionA_nonneg input.smoking_history
  have h8 := genderContributionA_nonneg input.gender
  linarith

lemma calculateBaseRiskScore_le_one (input : RiskPredictionInput) :
    calculateBaseRiskScore input ≤ 1 := min_le_right _ _

lemma applyRiskModifiers_nonneg (baseScore : ℚ) (input : RiskPredictionInput)
    (h : 0 ≤ baseScore) : 0 ≤ applyRiskModifiers baseScore input := by
  unfold applyRiskModifiers
  refine le_min ?_ (by norm_num)
  split_ifs <;> linarith

lemma applyRiskModifiers_le_one (baseScore : ℚ) (input : RiskPredictionInput) :
    applyRiskModifiers baseScore input ≤ 1 := min_le_right _ _

lemma modifiedScore_nonneg (input : RiskPredictionInput) : 0 ≤ modifiedScore input :=
  applyRiskModifiers_nonneg _ _ (calculateBaseRiskScore_nonneg input)

lemma modifiedScore_le_one (input : RiskPredictionInput) : modifiedScore input ≤ 1 :=
  applyRiskModifiers_le_one _ _

lemma calculateConfidenceScore_ge (input : RiskPredictionInput) :
    (0.5 : ℚ) ≤ calculateConfidenceScore input := by
  unfold calculateConfidenceScore
  exact le_max_left _ _

lemma calculateConfidenceScore_le_one (input : RiskPredictionInput) :
    calculateConfidenceScore input ≤ 1 := by
  unfold calculateConfidenceScore
  exact max_le (by norm_num) (min_le_right _ _)

lemma never_ne_current : smoking_never ≠ smoking_current := by decide

lemma never_ne_former : smoking_never ≠ smoking_former := by decide

lemma current_ne_former : smoking_current ≠ smoking_former := by decide

/-! ### Claim theorems -/

/-- C1: the prediction label is Positive exactly when a forced-override
condition holds — (HbA1c > 6.9 ∧ glucose ≥ 120), (glucose ≥ 200 ∧
HbA1c ≥ 5.9), HbA1c ≥ 6.5, glucose ≥ 126 — or the final probability
exceeds 0.5; and there is an input (HbA1c exactly 6.5, everything else
benign) whose probability is ≤ 0.5 yet whose label is Positive. -/
theorem C1_predictionLabel_iff :
    (∀ input : RiskPredictionInput,
      predictionResult input = PredictionResult.Positive ↔
        ((input.HbA1c_level > 6.9 ∧ input.blood_glucose_level ≥ 120) ∨
         (input.blood_glucose_level ≥ 200 ∧ input.HbA1c_level ≥ 5.9) ∨
         input.HbA1c_level ≥ 6.5 ∨ input.blood_glucose_level ≥ 126 ∨
         modifiedScore input > 0.5)) ∧
    (modifiedScore inputLowProbPositive ≤ 0.5 ∧
      predictionResult inputLowProbPositive = PredictionResult.Positive) := by
  constructor
  · intro input
    have hforce : shouldForcePositive input = true ↔
        ((input.HbA1c_level > 6.9 ∧ input.blood_glucose_level ≥ 120) ∨
         (input.blood_glucose_level ≥ 200 ∧ input.HbA1c_level ≥ 5.9) ∨
         input.HbA1c_level ≥ 6.5 ∨ input.blood_glucose_level ≥ 126) := by
      unfold shouldForcePositive
      simp only [THRESH_HbA1c_highRisk, THRESH_glucose_moderateRisk,
        THRESH_glucose_diabetes, THRESH_HbA1c_diabetes, THRESH_glucose_prediabetes]
      split_ifs with h1 h2 h3
      · exact iff_of_true rfl (Or.inl h1)
      · exact iff_of_true rfl (Or.inr (Or.inl h2))
      · rcases h3 with h | h
        · exact iff_of_true rfl (Or.inr (Or.inr (Or.inl h)))
        · exact iff_of_true rfl (Or.inr (Or.inr (Or.inr h)))
      · refine iff_of_false (by simp) ?_
        rintro (h | h | h | h)
        · exact h1 h
        · exact h2 h
        · exact h3 (Or.inl h)
        · exact h3 (Or.inr h)
    unfold predictionResult
    split_ifs with hf hp
    · refine iff_of_true rfl ?_
      rcases hforce.mp hf with h | h | h | h
      · exact Or.inl h
      · exact Or.inr (Or.inl h)
      · exact Or.inr (Or.inr (Or.inl h))
      · exact Or.inr (Or.inr (Or.inr (Or.inl h)))
    · exact iff_of_true rfl (Or.inr (Or.inr (Or.inr (Or.inr hp))))
    · refine iff_of_false (by simp) ?_
      rintro (h | h | h | h | h)
      · exact hf (hforce.mpr (Or.inl h))
      · exact hf (hforce.mpr (Or.inr (Or.inl h)))
      · exact hf (hforce.mpr (Or.inr (Or.inr (Or.inl h))))
      · exact hf (hforce.mpr (Or.inr (Or.inr (Or.inr h))))
      · exact hp h
  · constructor
    · norm_num [modifiedScore, applyRiskModifiers, calculateBaseRiskScore,
        hba1cContributionA, glucoseContributionA, bmiContributionA, ageContributionA,
        hypertensionContributionA, heartDiseaseContributionA, smokingContributionA,
        genderContributionA, inputLowProbPositive, THRESH_HbA1c_diabetes,
        THRESH_HbA1c_highRisk, THRESH_HbA1c_normal, THRESH_glucose_diabetes,
        THRESH_glucose_prediabetes, THRESH_glucose_moderateRisk, THRESH_glucose_normal,
        THRESH_bmi_obese, THRESH_bmi_overweight, THRESH_bmi_normal,
        THRESH_age_increased_risk, never_ne_current, never_ne_former, min_def]
    · norm_num [predictionResult, shouldForcePositive, inputLowProbPositive,
        THRESH_HbA1c_diabetes, THRESH_HbA1c_highRisk, THRESH_glucose_diabetes,
        THRESH_glucose_prediabetes, THRESH_glucose_moderateRisk]

/-- C2: on every input the engine's returned probability (the
`probability` field, i.e. the Stage-B modified score) lies in [0, 1] and
the returned confidence score lies in [0.5, 1.0]. -/
theorem C2_probability_confidence_bounds :
    ∀ input : RiskPredictionInput,
      ((calculateRisk input).toOption.map (fun r => r.probability)
          = some (modifiedScore input) ∧
        (calculateRisk input).toOption.map (fun r => r.confidence_score)
          = some (calculateConfidenceScore input)) ∧
      (0 ≤ modifiedScore input ∧ modifiedScore input ≤ 1) ∧
      ((0.5 : ℚ) ≤ calculateConfidenceScore input ∧
        calculateConfidenceScore input ≤ 1) :=
  fun input =>
    ⟨⟨rfl, rfl⟩,
      ⟨modifiedScore_nonneg input, modifiedScore_le_one input⟩,
      ⟨calculateConfidenceScore_ge input, calculateConfidenceScore_le_one input⟩⟩

/-- C8: in the Stage-A base score the HbA1c contribution is always 0,
0.15 or 0.35 and never the 0.30 of the `> 6.9` branch, which is
unreachable behind the `≥ 6.5` check. -/
theorem C8_hba1c_branch_unreachable :
    ∀ x : ℚ, hba1cContributionA x ≠ 0.30 ∧
      (hba1cContributionA x = 0 ∨ hba1cContributionA x = 0.15 ∨
        hba1cContributionA x = 0.35) := by
  intro x
  unfold hba1cContributionA
  split_ifs with h1 h2 h3
  · norm_num
  · exfalso
    simp only [THRESH_HbA1c_diabetes, not_le] at h1
    simp only [THRESH_HbA1c_highRisk] at h2
    have : (6.5 : ℚ) < 6.9 := by norm_num
    linarith
  · norm_num
  · norm_num

/-- C9: the confidence interval computed from the engine's probability and
confidence score always brackets the probability. -/
theorem C9_confidence_interval_brackets :
    ∀ input : RiskPredictionInput,
      (calculateConfidenceInterval (modifiedScore input)
          (calculateConfidenceScore input)).lower ≤ modifiedScore input ∧
      modifiedScore input ≤
        (calculateConfidenceInterval (modifiedScore input)
          (calculateConfidenceScore input)).upper := by
  intro input
  have hc := calculateConfidenceScore_le_one input
  have hmargin : 0 ≤ (1 - calculateConfidenceScore input) * 0.5 :=
    mul_nonneg (by linarith) (by norm_num)
  unfold calculateConfidenceInterval
  constructor
  · exact max_le (modifiedScore_nonneg input) (by linarith)
  · exact le_min (modifiedScore_le_one input) (by linarith)

/-- C10: whenever the returned risk level is High or Critical (final
probability at least 0.6) the prediction label is Positive. -/
theorem C10_high_critical_implies_positive :
    ∀ input : RiskPredictionInput,
      (determineRiskLevel (modifiedScore input) = RiskLevel.High ∨
        determineRiskLevel (modifiedScore input) = RiskLevel.Critical) →
      predictionResult input = PredictionResult.Positive := by
  intro input h
  unfold predictionResult
  split_ifs with hf hp
  · rfl
  · rfl
  · exfalso
    push_neg at hp
    unfold determineRiskLevel at h
    split_ifs at h with h8 h6 h4
    · linarith
    · linarith
    · rcases h with h | h <;> simp at h
    · rcases h with h | h <;> simp at h

/-- Witness for C10 at a concrete severe input whose risk level is
Critical. -/
theorem C10_witness :
    predictionResult inputCriticalCase = PredictionResult.Positive :=
  C10_high_critical_implies_positive inputCriticalCase
    (Or.inr (by
      norm_num [determineRiskLevel, modifiedScore, applyRiskModifiers,
        calculateBaseRiskScore, hba1cContributionA, glucoseContributionA,
        bmiContributionA, ageContributionA, hypertensionContributionA,
        heartDiseaseContributionA, smokingContributionA, genderContributionA,
        inputCriticalCase, THRESH_HbA1c_diabetes, THRESH_HbA1c_highRisk,
        THRESH_HbA1c_normal, THRESH_glucose_diabetes, THRESH_glucose_prediabetes,
        THRESH_glucose_moderateRisk, THRESH_glucose_normal, THRESH_bmi_obese,
        THRESH_bmi_overweight, THRESH_bmi_normal, THRESH_age_increased_risk,
        current_ne_former, min_def]))

/-- C3 counterexample: on the concrete input whose `patientRef` is the
empty string, the engine does not reject — it computes and returns a full
result (with probability 0) instead of signalling InvalidInput. -/
theorem C3_counterexample :
    inputEmptyId.patient_id = "" ∧
    (calculateRisk inputEmptyId).isOk = true ∧
    (calculateRisk inputEmptyId).toOption.map (fun r => r.probability) = some 0 := by
  refine ⟨rfl, rfl, ?_⟩
  have hms : modifiedScore inputEmptyId = 0 := by
    norm_num [modifiedScore, applyRiskModifiers, calculateBaseRiskScore,
      hba1cContributionA, glucoseContributionA, bmiContributionA, ageContributionA,
      hypertensionContributionA, heartDiseaseContributionA, smokingContributionA,
      genderContributionA, inputEmptyId, THRESH_HbA1c_diabetes, THRESH_HbA1c_highRisk,
      THRESH_HbA1c_normal, THRESH_glucose_diabetes, THRESH_glucose_prediabetes,
      THRESH_glucose_moderateRisk, THRESH_glucose_normal, THRESH_bmi_obese,
      THRESH_bmi_overweight, THRESH_bmi_normal, THRESH_age_increased_risk,
      never_ne_current, never_ne_former, min_def]
  have h : (calculateRisk inputEmptyId).toOption.map (fun r => r.probability)
      = some (modifiedScore inputEmptyId) := rfl
  rw [h, hms]

/-- C3 amended: the engine performs no input validation at all — for every
input, including one with an empty `patient_id` and regardless of how far
out of range the (finite) numeric fields are, `calculateRisk` returns a
computed result and never rejects. -/
theorem C3_amended_never_rejects :
    ∀ input : RiskPredictionInput, (calculateRisk input).isOk = true :=
  fun _ => rfl

/-- C4 counterexample: at blood glucose 120 the Stage-A base-score
contribution is 0.12 (the `≥ 120` band) while the Stage-D attribution
stage recomputes 0.10 (its band list jumps from `≥ 126` to `≥ 100`), so
the attribution stage does not reuse the Stage-A thresholds. -/
theorem C4_counterexample :
    glucoseContributionA 120 = 0.12 ∧ glucoseContributionD 120 = 0.10 ∧
      (0.12 : ℚ) ≠ 0.10 := by
  norm_num [glucoseContributionA, glucoseContributionD, THRESH_glucose_diabetes,
    THRESH_glucose_prediabetes, THRESH_glucose_moderateRisk, THRESH_glucose_normal]

/-- C4 amended: every feature's Stage-D contribution equals its Stage-A
contribution except blood glucose, where the two agree unless the value
lies in the [120, 126) band — there Stage A contributes 0.12 and Stage D
0.10. -/
theorem C4_amended_attribution_matches_base :
    (∀ x : ℚ, hba1cContributionD x = hba1cContributionA x) ∧
    (∀ b : ℚ, bmiContributionD b = bmiContributionA b) ∧
    (∀ a : ℚ, ageContributionD a = ageContributionA a) ∧
    (∀ h : ℚ, hypertensionContributionD h = hypertensionContributionA h) ∧
    (∀ h : ℚ, heartDiseaseContributionD h = heartDiseaseContributionA h) ∧
    (∀ s : String, smokingContributionD s = smokingContributionA s) ∧
    (∀ g : ℚ, genderContributionD g = genderContributionA g) ∧
    (∀ g : ℚ, glucoseContributionD g = glucoseContributionA g ∨
      (THRESH_glucose_moderateRisk ≤ g ∧ g < THRESH_glucose_prediabetes ∧
        glucoseContributionA g = 0.12 ∧ glucoseContributionD g = 0.10)) := by
  refine ⟨?_, fun _ => rfl, fun _ => rfl, fun _ => rfl, fun _ => rfl,
    fun _ => rfl, fun _ => rfl, ?_⟩
  · intro x
    unfold hba1cContributionD hba1cContributionA
    simp only [THRESH_HbA1c_diabetes, THRESH_HbA1c_prediabetes,
      THRESH_HbA1c_highRisk, THRESH_HbA1c_normal]
    split_ifs with h1 h2 h3 <;> first
      | rfl
      | (exfalso; push_neg at h1; linarith)
  · intro g
    by_cases hb : (120 : ℚ) ≤ g ∧ g < 126
    · right
      simp only [THRESH_glucose_moderateRisk, THRESH_glucose_prediabetes]
      refine ⟨hb.1, hb.2, ?_, ?_⟩
      · unfold glucoseContributionA
        simp only [THRESH_glucose_diabetes, THRESH_glucose_prediabetes,
          THRESH_glucose_moderateRisk, THRESH_glucose_normal]
        rw [if_neg (by intro hc; rcases hb with ⟨hb1, hb2⟩; linarith),
          if_neg (by intro hc; rcases hb with ⟨hb1, hb2⟩; linarith),
          if_pos (by exact hb.1)]
      · unfold glucoseContributionD
        simp only [THRESH_glucose_diabetes, THRESH_glucose_prediabetes,
          THRESH_glucose_normal]
        rw [if_neg (by intro hc; rcases hb with ⟨hb1, hb2⟩; linarith),
          if_neg (by intro hc; rcases hb with ⟨hb1, hb2⟩; linarith),
          if_pos (by rcases hb with ⟨hb1, hb2⟩; linarith)]
    · left
      rw [not_and_or, not_le, not_lt] at hb
      unfold glucoseContributionD glucoseContributionA
      simp only [THRESH_glucose_diabetes, THRESH_glucose_prediabetes,
        THRESH_glucose_moderateRisk, THRESH_glucose_normal]
      rcases hb with hb | hb
      · split_ifs <;> first | rfl | (exfalso; linarith)
      · split_ifs <;> rfl

/-! ### Helper lemmas: the stable descending insertion sort -/

lemma mem_insertByContributionDesc {x a : FeatureContribution}
    {l : List FeatureContribution} :
    x ∈ insertByContributionDesc a l ↔ x = a ∨ x ∈ l := by
  induction l with
  | nil => simp [insertByContributionDesc]
  | cons b bs ih =>
    unfold insertByContributionDesc
    split_ifs
    · simp [List.mem_cons]
    · simp only [List.mem_cons, ih]
      tauto

lemma insertByContributionDesc_perm (a : FeatureContribution)
    (l : List FeatureContribution) :
    List.Perm (insertByContributionDesc a l) (a :: l) := by
  induction l with
  | nil => exact List.Perm.refl _
  | cons b bs ih =>
    unfold insertByContributionDesc
    split_ifs
    · exact List.Perm.refl _
    · exact (ih.cons b).trans (List.Perm.swap a b bs)

lemma sortByContributionDesc_perm (l : List FeatureContribution) :
    List.Perm (sortByContributionDesc l) l := by
  induction l with
  | nil => exact List.Perm.refl _
  | cons a as ih =>
    exact (insertByContributionDesc_perm a _).trans (ih.cons a)

lemma pairwise_insertByContributionDesc {a : FeatureContribution}
    {l : List FeatureContribution}
    (h : l.Pairwise (fun x y => y.contribution ≤ x.contribution)) :
    (insertByContributionDesc a l).Pairwise
      (fun x y => y.contribution ≤ x.contribution) := by
  induction l with
  | nil => simp [insertByContributionDesc]
  | cons b bs ih =>
    rcases List.pairwise_cons.mp h with ⟨hb, hbs⟩
    unfold insertByContributionDesc
    split_ifs with hab
    · refine List.pairwise_cons.mpr ⟨?_, h⟩
      intro y hy
      rcases List.mem_cons.mp hy with rfl | hy
      · exact hab
      · exact le_trans (hb y hy) hab
    · refine List.pairwise_cons.mpr ⟨?_, ih hbs⟩
      intro y hy
      rcases mem_insertByContributionDesc.mp hy with rfl | hy
      · exact le_of_lt (lt_of_not_ge hab)
      · exact hb y hy

lemma pairwise_sortByContributionDesc (l : List FeatureContribution) :
    (sortByContributionDesc l).Pairwise
      (fun x y => y.contribution ≤ x.contribution) := by
  induction l with
  | nil => simp [sortByContributionDesc]
  | cons a as ih => exact pairwise_insertByContributionDesc ih

lemma filter_insertByContributionDesc_of_eq {a : FeatureContribution}
    {l : List FeatureContribution} {v : ℚ} (ha : a.contribution = v) :
    (insertByContributionDesc a l).filter (fun fc => decide (fc.contribution = v))
      = a :: l.filter (fun fc => decide (fc.contribution = v)) := by
  induction l with
  | nil => simp [insertByContributionDesc, List.filter_cons, ha]
  | cons b bs ih =>
    unfold insertByContributionDesc
    split_ifs with hab
    · simp [List.filter_cons, ha]
    · have hbv : b.contribution ≠ v := by
        intro hv
        exact hab (ha ▸ hv ▸ le_refl b.contribution)
      simp [List.filter_cons, hbv, ih]

lemma filter_insertByContributionDesc_of_ne {a : FeatureContribution}
    {l : List FeatureContribution} {v : ℚ} (ha : a.contribution ≠ v) :
    (insertByContributionDesc a l).filter (fun fc => decide (fc.contribution = v))
      = l.filter (fun fc => decide (fc.contribution = v)) := by
  induction l with
  | nil => simp [insertByContributionDesc, List.filter_cons, ha]
  | cons b bs ih =>
    unfold insertByContributionDesc
    split_ifs with hab
    · simp [List.filter_cons, ha]
    · simp [List.filter_cons, ih]

lemma filter_sortByContributionDesc (l : List FeatureContribution) (v : ℚ) :
    (sortByContributionDesc l).filter (fun fc => decide (fc.contribution = v))
      = l.filter (fun fc => decide (fc.contribution = v)) := by
  induction l with
  | nil => rfl
  | cons a as ih =>
    by_cases ha : a.contribution = v
    · rw [show sortByContributionDesc (a :: as)
          = insertByContributionDesc a (sortByContributionDesc as) from rfl,
        filter_insertByContributionDesc_of_eq ha, ih]
      simp [List.filter_cons, ha]
    · rw [show sortByContributionDesc (a :: as)
          = insertByContributionDesc a (sortByContributionDesc as) from rfl,
        filter_insertByContributionDesc_of_ne ha, ih]
      simp [List.filter_cons, ha]

/-! ### Helper lemmas: zero base score forces zero attribution total -/

lemma hba1cContributionD_zero_of_A_zero {x : ℚ}
    (h : hba1cContributionA x = 0) : hba1cContributionD x = 0 := by
  unfold hba1cContributionA at h
  unfold hba1cContributionD
  simp only [THRESH_HbA1c_diabetes, THRESH_HbA1c_prediabetes,
    THRESH_HbA1c_highRisk, THRESH_HbA1c_normal] at h ⊢
  split_ifs at h ⊢ <;> first | rfl | (exact absurd h (by norm_num))

lemma glucoseContributionD_zero_of_A_zero {g : ℚ}
    (h : glucoseContributionA g = 0) : glucoseContributionD g = 0 := by
  unfold glucoseContributionA at h
  unfold glucoseContributionD
  simp only [THRESH_glucose_diabetes, THRESH_glucose_prediabetes,
    THRESH_glucose_moderateRisk, THRESH_glucose_normal] at h ⊢
  split_ifs at h ⊢ <;> first | rfl | (exact absurd h (by norm_num))

lemma totalContribution_eq_zero_of_base {input : RiskPredictionInput}
    (h : calculateBaseRiskScore input = 0) : totalContribution input = 0 := by
  have h1 := hba1cContributionA_nonneg input.HbA1c_level
  have h2 := glucoseContributionA_nonneg input.blood_glucose_level
  have h3 := bmiContributionA_nonneg input.bmi
  have h4 := ageContributionA_nonneg input.age
  have h5 := hypertensionContributionA_nonneg input.hypertension
  have h6 := heartDiseaseContributionA_nonneg input.heart_disease
  have h7 := smokingContributionA_nonneg input.smoking_history
  have h8 := genderContributionA_nonneg input.gender
  unfold calculateBaseRiskScore at h
  have hs : hba1cContributionA input.HbA1c_level
      + glucoseContributionA input.blood_glucose_level
      + bmiContributionA input.bmi
      + ageContributionA input.age
      + hypertensionContributionA input.hypertension
      + heartDiseaseContributionA input.heart_disease
      + smokingContributionA input.smoking_history
      + genderContributionA input.gender = 0 := by
    rcases le_total (hba1cContributionA input.HbA1c_level
      + glucoseContributionA input.blood_glucose_level
      + bmiContributionA input.bmi
      + ageContributionA input.age
      + hypertensionContributionA input.hypertension
      + heartDiseaseContributionA input.heart_disease
      + smokingContributionA input.smoking_history
      + genderContributionA input.gender) 1 with hle | hge
    · rwa [min_eq_left hle] at h
    · rw [min_eq_right hge] at h
      norm_num at h
  have e1 : hba1cContributionA input.HbA1c_level = 0 := by linarith
  have e2 : glucoseContributionA input.blood_glucose_level = 0 := by linarith
  have e3 : bmiContributionA input.bmi = 0 := by linarith
  have e4 : ageContributionA input.age = 0 := by linarith
  have e5 : hypertensionContributionA input.hypertension = 0 := by linarith
  have e6 : heartDiseaseContributionA input.heart_disease = 0 := by linarith
  have e7 : smokingContributionA input.smoking_history = 0 := by linarith
  have e8 : genderContributionA input.gender = 0 := by linarith
  unfold totalContribution
  rw [hba1cContributionD_zero_of_A_zero e1, glucoseContributionD_zero_of_A_zero e2]
  rw [show bmiContributionD input.bmi = 0 from e3,
    show ageContributionD input.age = 0 from e4,
    show hypertensionContributionD input.hypertension = 0 from e5,
    show heartDiseaseContributionD input.heart_disease = 0 from e6,
    show smokingContributionD input.smoking_history = 0 from e7,
    show genderContributionD input.gender = 0 from e8]
  norm_num

/-- C5: whenever the total of the Stage-D per-feature base contributions
is strictly positive the shares in the attributions list sum to exactly 1,
and whenever that total is 0 every attribution share is 0. -/
theorem C5_attribution_shares_sum :
    ∀ input : RiskPredictionInput,
      (0 < totalContribution input →
        ((generateFeatureContributions (calculateSHAPValues input) input).map
          (fun fc => fc.contribution)).sum = 1) ∧
      (totalContribution input = 0 →
        ∀ fc ∈ generateFeatureContributions (calculateSHAPValues input) input,
          fc.contribution = 0) := by
  intro input
  have hperm : List.Perm
      (generateFeatureContributions (calculateSHAPValues input) input)
      (unsortedFeatureContributions (calculateSHAPValues input) input) :=
    sortByContributionDesc_perm _
  constructor
  · intro ht
    have hbase : calculateBaseRiskScore input ≠ 0 := by
      intro hbz
      rw [totalContribution_eq_zero_of_base hbz] at ht
      exact lt_irrefl 0 ht
    have hshap : calculateSHAPValues input =
        { bmi := bmiContributionD input.bmi / totalContribution input,
          hbA1c_level := hba1cContributionD input.HbA1c_level / totalContribution input,
          blood_glucose_level :=
            glucoseContributionD input.blood_glucose_level / totalContribution input,
          age := ageContributionD input.age / totalContribution input,
          hypertension :=
            hypertensionContributionD input.hypertension / totalContribution input,
          heart_disease :=
            heartDiseaseContributionD input.heart_disease / totalContribution input,
          smoking_history :=
            smokingContributionD input.smoking_history / totalContribution input,
          gender := genderContributionD input.gender / totalContribution input } := by
      unfold calculateSHAPValues
      rw [if_neg hbase, if_neg (ne_of_gt ht)]
    rw [(hperm.map (fun fc => fc.contribution)).sum_eq]
    rw [hshap]
    unfold unsortedFeatureContributions
    simp only [List.map_cons, List.map_nil, List.sum_cons, List.sum_nil]
    have ht' : totalContribution input ≠ 0 := ne_of_gt ht
    field_simp
    unfold totalContribution
    ring
  · intro ht fc hfc
    have hshap : calculateSHAPValues input = zeroShap := by
      unfold calculateSHAPValues
      split_ifs <;> rfl
    rw [hshap] at hfc hperm
    have hmem := hperm.mem_iff.mp hfc
    simp only [unsortedFeatureContributions, zeroShap, List.mem_cons,
      List.not_mem_nil, or_false] at hmem
    rcases hmem with rfl | rfl | rfl | rfl | rfl | rfl | rfl | rfl <;> rfl

/-- Witness for C5 at a concrete input with a strictly positive
attribution total: the shares sum to exactly 1. -/
theorem C5_witness :
    0 < totalContribution inputCriticalCase ∧
    ((generateFeatureContributions (calculateSHAPValues inputCriticalCase)
      inputCriticalCase).map (fun fc => fc.contribution)).sum = 1 := by
  have hpos : 0 < totalContribution inputCriticalCase := by
    norm_num [totalContribution, hba1cContributionD, glucoseContributionD,
      bmiContributionD, ageContributionD, hypertensionContributionD,
      heartDiseaseContributionD, smokingContributionD, genderContributionD,
      inputCriticalCase, THRESH_HbA1c_diabetes, THRESH_HbA1c_prediabetes,
      THRESH_HbA1c_normal, THRESH_glucose_diabetes, THRESH_glucose_prediabetes,
      THRESH_glucose_normal, THRESH_bmi_obese, THRESH_bmi_overweight,
      THRESH_bmi_normal, THRESH_age_increased_risk]
  exact ⟨hpos, (C5_attribution_shares_sum inputCriticalCase).1 hpos⟩

/-- C6 counterexample: on the all-benign input every attribution share is
0 — an eight-way tie — yet the list comes back in the source's internal
feature-array order, whose first entry is the HbA1c feature; the §3 input
field order required by the claim would put the age feature first. -/
theorem C6_counterexample :
    ((generateFeatureContributions (calculateSHAPValues inputEmptyId) inputEmptyId).map
      (fun fc => fc.contribution)) = [0, 0, 0, 0, 0, 0, 0, 0] ∧
    ((generateFeatureContributions (calculateSHAPValues inputEmptyId) inputEmptyId).map
      (fun fc => fc.name)) =
      [featureName_hba1c, featureName_glucose, featureName_bmi, featureName_age,
        featureName_hypertension, featureName_heartDisease, featureName_smoking,
        featureName_gender] ∧
    featureName_hba1c ≠ featureName_age := by
  have hbase : calculateBaseRiskScore inputEmptyId = 0 := by
    norm_num [calculateBaseRiskScore, hba1cContributionA, glucoseContributionA,
      bmiContributionA, ageContributionA, hypertensionContributionA,
      heartDiseaseContributionA, smokingContributionA, genderContributionA,
      inputEmptyId, THRESH_HbA1c_diabetes, THRESH_HbA1c_highRisk,
      THRESH_HbA1c_normal, THRESH_glucose_diabetes, THRESH_glucose_prediabetes,
      THRESH_glucose_moderateRisk, THRESH_glucose_normal, THRESH_bmi_obese,
      THRESH_bmi_overweight, THRESH_bmi_normal, THRESH_age_increased_risk,
      never_ne_current, never_ne_former, min_def]
  have hshap : calculateSHAPValues inputEmptyId = zeroShap := by
    unfold calculateSHAPValues
    rw [if_pos hbase]
  refine ⟨?_, ?_, by decide⟩
  · rw [generateFeatureContributions, hshap]
    simp [unsortedFeatureContributions, zeroShap, sortByContributionDesc,
      insertByContributionDesc]
  · rw [generateFeatureContributions, hshap]
    simp [unsortedFeatureContributions, zeroShap, sortByContributionDesc,
      insertByContributionDesc]

/-- C6 amended: the attributions list is sorted by descending
contribution share, and entries with equal shares keep the source's
internal feature-array order (HbA1c, Blood Glucose, BMI, Age,
Hypertension, Heart Disease, Smoking History, Gender) — not the §3 input
field order: for every share value, filtering the sorted list down to
that value yields exactly the same sequence as filtering the unsorted
internal-order list. -/
theorem C6_amended_sorted_stable :
    ∀ input : RiskPredictionInput,
      (generateFeatureContributions (calculateSHAPValues input) input).Pairwise
        (fun x y => y.contribution ≤ x.contribution) ∧
      ∀ v : ℚ,
        (generateFeatureContributions (calculateSHAPValues input) input).filter
            (fun fc => decide (fc.contribution = v)) =
          (unsortedFeatureContributions (calculateSHAPValues input) input).filter
            (fun fc => decide (fc.contribution = v)) :=
  fun _ => ⟨pairwise_sortByContributionDesc _,
    fun v => filter_sortByContributionDesc _ v⟩

lemma flags_filter_cons (c : Bool) (m : String) (rs : List (Bool × String)) :
    (((c, m) :: rs).filter (fun r => r.1)).map (fun r => r.2)
      = (if c then [m] else []) ++ ((rs.filter (fun r => r.1)).map (fun r => r.2)) := by
  cases c <;> simp [List.filter_cons]

/-- C7: the flags list equals exactly the messages of those of the eight
fixed conditions that hold, appended in the fixed evaluation order
(`flagsSpec` renders the claim's rule list; several rules may fire at
once, and nothing else is ever appended). -/
theorem C7_flags_exact :
    ∀ input : RiskPredictionInput, checkFlaggedConditions input = flagsSpec input := by
  intro input
  unfold flagsSpec flagRules checkFlaggedConditions
  simp only [flags_filter_cons, List.filter_nil, List.map_nil, List.append_nil,
    decide_eq_true_eq, List.append_assoc]
